import Mathlib

/-!
Verification development for the ccode profile store and reconciliation
engine.  The Rust sources under `src/` are embedded shallowly: each Rust
function becomes an executable Lean definition over explicit state values,
`Result<T, AppError>` becomes `Except AppError T`, and the file system is
modelled by explicit state records (the parsed on-disk document plus the
list of backup snapshots).  Error message strings are kept close to the
source but quote characters are omitted.
-/

-- Equality on `Except` values, needed so concrete runs of the embedded
-- operations can be checked by `decide`.
deriving instance DecidableEq for Except

/-- Whether `pat` occurs at the very start of `l` (helper for the
character-list string primitives below, which are used instead of the
built-in `String` operations so that concrete runs reduce in the kernel). -/
def charsStartWith : List Char → List Char → Bool
  | _, [] => true
  | [], _ :: _ => false
  | c :: cs, p :: ps => c == p && charsStartWith cs ps

/-- Whether `pat` occurs anywhere in `l` (mirrors Rust `str::contains`). -/
def charsContain (l pat : List Char) : Bool :=
  match l with
  | [] => charsStartWith [] pat
  | _ :: cs => charsStartWith l pat || charsContain cs pat

/-- Substring containment, mirroring Rust `str::contains`. -/
def strContains (s pat : String) : Bool :=
  charsContain s.data pat.data

/-- Mirrors Rust `str::starts_with`. -/
def strStartsWith (s pat : String) : Bool :=
  charsStartWith s.data pat.data

/-- Mirrors Rust `str::ends_with`. -/
def strEndsWith (s pat : String) : Bool :=
  charsStartWith s.data.reverse pat.data.reverse

/-- Mirrors Rust `s.trim().is_empty()`: true exactly when every character
is whitespace. -/
def isBlank (s : String) : Bool :=
  s.data.all (fun c => c.isWhitespace)

/-- The error type of `src/error.rs` (`AppError`).  The `Io` and `Json`
payloads (wrapped lower-level errors) are not modelled since no claim
inspects them. -/
inductive AppError where
  | Config (msg : String)
  | Io
  | Json
  | ConfigNotFound
  | ProfileNotFound (name : String)
  | InvalidConfig (msg : String)
  | CommandExecution (msg : String)
deriving DecidableEq, Repr

/-- `ProviderType` from `src/config.rs`. -/
inductive ProviderType where
  | OpenAI
  | OpenRouter
  | DeepSeek
  | Gemini
  | Qwen
  | Custom
deriving DecidableEq, Repr, BEq

/-- `ProviderType::validate_url_format` from `src/config.rs` lines 138-157. -/
def ProviderType.validate_url_format (t : ProviderType) (url : String) :
    Except AppError Unit :=
  match t with
  | .Gemini =>
      if !(strContains url "/v1beta/models/") then
        .error (.InvalidConfig "Gemini API URL应包含/v1beta/models/路径")
      else .ok ()
  | _ =>
      if !(strContains url "/chat/completions") && !(t == .Custom) then
        .error (.InvalidConfig "API URL应包含/chat/completions路径")
      else .ok ()

/-- `CcrProvider` from `src/config.rs`.  The `transformer` payload is an
opaque JSON value in the source; it is modelled abstractly as an optional
string since no embedded operation inspects it. -/
structure CcrProvider where
  name : String
  api_base_url : String
  api_key : String
  models : List String
  transformer : Option String
  provider_type : Option ProviderType
deriving DecidableEq, Repr

/-- `CcrProvider::validate` from `src/config.rs` lines 205-230. -/
def CcrProvider.validate (p : CcrProvider) : Except AppError Unit :=
  if isBlank p.name then
    .error (.InvalidConfig "提供商名称不能为空")
  else if isBlank p.api_base_url then
    .error (.InvalidConfig "API URL不能为空")
  else if !strStartsWith p.api_base_url "http://" && !strStartsWith p.api_base_url "https://" then
    .error (.InvalidConfig "API URL格式无效，应以http://或https://开头")
  else if p.models.isEmpty then
    .error (.InvalidConfig "模型列表不能为空")
  else
    match p.provider_type with
    | some t => t.validate_url_format p.api_base_url
    | none => .ok ()

/-- `CcrRouter` from `src/config.rs` (serde names: `longContext`,
`longContextThreshold`, `webSearch`). -/
structure CcrRouter where
  default : String
  background : Option String
  think : Option String
  long_context : Option String
  long_context_threshold : Option Nat
  web_search : Option String
deriving DecidableEq, Repr

/-- One step of the optional-route loop in `CcrRouter::validate`
(`src/config.rs` lines 321-329). -/
def checkOptionalRoute (name : String) (route : Option String) :
    Except AppError Unit :=
  match route with
  | none => .ok ()
  | some v =>
      if !(isBlank v) && !(strContains v ",") then
        .error (.InvalidConfig (name ++ "路由配置格式无效，应为provider,model格式"))
      else .ok ()

/-- `CcrRouter::validate` from `src/config.rs` lines 301-332. -/
def CcrRouter.validate (r : CcrRouter) : Except AppError Unit :=
  if isBlank r.default then
    .error (.InvalidConfig "默认路由配置不能为空")
  else if !(strContains r.default ",") then
    .error (.InvalidConfig "默认路由配置格式无效，应为provider,model格式")
  else
    match checkOptionalRoute "background" r.background with
    | .error e => .error e
    | .ok _ =>
      match checkOptionalRoute "think" r.think with
      | .error e => .error e
      | .ok _ =>
        match checkOptionalRoute "longContext" r.long_context with
        | .error e => .error e
        | .ok _ => checkOptionalRoute "webSearch" r.web_search

/-- `CcrRouter::get_all_routes` from `src/config.rs` lines 335-352. -/
def CcrRouter.get_all_routes (r : CcrRouter) : List (String × String) :=
  [("default", r.default)]
    ++ (match r.background with | some b => [("background", b)] | none => [])
    ++ (match r.think with | some t => [("think", t)] | none => [])
    ++ (match r.long_context with | some l => [("longContext", l)] | none => [])
    ++ (match r.web_search with | some w => [("webSearch", w)] | none => [])

/-- The provider segment of a route string: the text before the first comma
(Rust `route_value.split(',').next()`, which is always `Some`). -/
def providerSegment (route : String) : String :=
  String.mk (route.data.takeWhile (fun c => !(c == ',')))

/-- Membership of a string in a list of names (the `HashSet::contains`
tests of the source, modelled over a list). -/
def nameMem (names : List String) (n : String) : Bool :=
  names.any (fun m => decide (m = n))

/-- First route (in `get_all_routes` order) whose provider segment does not
name a declared provider, if any.  Mirrors the reject-on-first cross
reference loops in `CcrProfile::validate` and
`CcrConfigManager::update_router_only`. -/
def firstDanglingRoute (providerNames : List String) :
    List (String × String) → Option (String × String)
  | [] => none
  | (n, v) :: rest =>
      if nameMem providerNames (providerSegment v) then
        firstDanglingRoute providerNames rest
      else some (n, v)

/-- Validate a list of providers in order, stopping at the first failure
(the `for provider in &self.providers { provider.validate()?; }` loop). -/
def validateProviders : List CcrProvider → Except AppError Unit
  | [] => .ok ()
  | p :: rest =>
      match p.validate with
      | .error e => .error e
      | .ok _ => validateProviders rest

/-- `DirectProfile` from `src/config.rs` (serde names
`ANTHROPIC_AUTH_TOKEN`, `ANTHROPIC_BASE_URL`). -/
structure DirectProfile where
  anthropic_auth_token : String
  anthropic_base_url : String
  description : Option String
  created_at : Option String
deriving DecidableEq, Repr

/-- `CcrProfile` from `src/config.rs` (serde names `Providers`, `Router`,
`API_TIMEOUT_MS`, `PROXY_URL`, `LOG`, `APIKEY`, `HOST`). -/
structure CcrProfile where
  providers : List CcrProvider
  router : CcrRouter
  api_timeout_ms : Option Nat
  proxy_url : Option String
  log : Option Bool
  api_key : Option String
  host : Option String
  description : Option String
  created_at : Option String
deriving DecidableEq, Repr

/-- `CcrProfile::validate` from `src/config.rs` lines 457-486: providers
non-empty, every provider valid, router valid, then reject-on-first
dangling provider reference. -/
def CcrProfile.validate (c : CcrProfile) : Except AppError Unit :=
  if c.providers.isEmpty then
    .error (.InvalidConfig "CCR提供商列表不能为空")
  else
    match validateProviders c.providers with
    | .error e => .error e
    | .ok _ =>
      match c.router.validate with
      | .error e => .error e
      | .ok _ =>
        match firstDanglingRoute (c.providers.map (fun p => p.name))
            c.router.get_all_routes with
        | some (routeName, routeValue) =>
            .error (.InvalidConfig
              ("路由" ++ routeName ++ "中的提供商" ++ providerSegment routeValue
                ++ "不存在"))
        | none => .ok ()

/-- `ProviderOperation` from `src/ccr_config.rs` lines 8-16. -/
inductive ProviderOperation where
  | Add
  | Update
  | Remove
deriving DecidableEq, Repr

/-- Modelled from the spec: the `CcrConfig` type (the externally-owned
Proxy Config document) is declared in this repository's `config.rs` but
that declaration is missing from `src/`; only its consumers
(`src/ccr_config.rs`) are present.  Fields follow spec section 3:
optional scalar settings, a provider list, and a route set, with the
serde field names fixed by the external consumer. -/
structure CcrConfig where
  Providers : List CcrProvider
  Router : CcrRouter
  API_TIMEOUT_MS : Option Nat
  PROXY_URL : Option String
  LOG : Option Bool
  APIKEY : Option String
  HOST : Option String
  transformers : Option String
  custom_router_path : Option String
deriving DecidableEq, Repr

/-- Modelled from the spec: `load()` on a missing file "returns a default
empty document (empty provider list, a placeholder unset route set)". -/
def CcrConfig.default : CcrConfig :=
  { Providers := []
    Router := { default := "", background := none, think := none,
                long_context := none, long_context_threshold := none,
                web_search := none }
    API_TIMEOUT_MS := none, PROXY_URL := none, LOG := none,
    APIKEY := none, HOST := none, transformers := none,
    custom_router_path := none }

/-- Modelled from the spec: full-document validation used by `save`
(spec section 4.4): `validate_provider` for each provider,
`validate_route_set`, then `validate_cross_references` in
reject-on-first-violation mode (the same checks, in the same order, as the
in-`src` `CcrProfile::validate`). -/
def CcrConfig.validate (c : CcrConfig) : Except AppError Unit :=
  match validateProviders c.Providers with
  | .error e => .error e
  | .ok _ =>
    match c.Router.validate with
    | .error e => .error e
    | .ok _ =>
      match firstDanglingRoute (c.Providers.map (fun p => p.name))
          c.Router.get_all_routes with
      | some (routeName, routeValue) =>
          .error (.InvalidConfig
            ("路由" ++ routeName ++ "引用了不存在的提供商"
              ++ providerSegment routeValue))
      | none => .ok ()

/-- The reconciler's file-system footprint: the Proxy Config document (in
parsed form; `none` when the file does not exist) and the contents of the
backup snapshots taken so far, in creation order. -/
structure CcrState where
  file : Option CcrConfig
  backups : List CcrConfig
deriving DecidableEq, Repr

/-- `CcrConfigManager::load_config` (`src/ccr_config.rs` lines 65-76):
missing file yields the default document. -/
def CcrConfigManager.load_config (st : CcrState) : CcrConfig :=
  st.file.getD CcrConfig.default

/-- `CcrConfigManager::create_backup` (`src/ccr_config.rs` lines 98-115),
at the level of backup contents: fails when no config file exists,
otherwise snapshots the current file. -/
def CcrConfigManager.create_backup (st : CcrState) :
    Except AppError CcrState :=
  match st.file with
  | none => .error (.Config "CCR 配置文件不存在，无法创建备份")
  | some c => .ok { st with backups := st.backups ++ [c] }

/-- The backup-if-exists-then-write tail shared by `save_config`,
`update_router_only`, `update_provider_only`
(`if self.config_path.exists() { self.create_backup()?; }` followed by
`fs::write`). -/
def CcrConfigManager.backupAndWrite (st : CcrState) (newConfig : CcrConfig) :
    CcrState :=
  let st1 :=
    match st.file with
    | some old => { st with backups := st.backups ++ [old] }
    | none => st
  { st1 with file := some newConfig }

/-- `CcrConfigManager::save_config` (`src/ccr_config.rs` lines 80-95):
validate the full document, back up if a file exists, write. -/
def CcrConfigManager.save_config (st : CcrState) (config : CcrConfig) :
    Except AppError Unit × CcrState :=
  match config.validate with
  | .error e => (.error e, st)
  | .ok _ => (.ok (), CcrConfigManager.backupAndWrite st config)

/-- `CcrConfigManager::update_router_only` (`src/ccr_config.rs` lines
395-429): validate the route set, load the current document, reject the
first dangling provider reference, back up if the file exists, then write
the document with only the `Router` node replaced. -/
def CcrConfigManager.update_router_only (st : CcrState) (router : CcrRouter) :
    Except AppError Unit × CcrState :=
  match router.validate with
  | .error e => (.error e, st)
  | .ok _ =>
    let config := CcrConfigManager.load_config st
    match firstDanglingRoute (config.Providers.map (fun p => p.name))
        router.get_all_routes with
    | some (routeName, routeValue) =>
        (.error (.InvalidConfig
          ("路由" ++ routeName ++ "引用了不存在的提供商"
            ++ providerSegment routeValue)), st)
    | none =>
        (.ok (), CcrConfigManager.backupAndWrite st
          { config with Router := router })

/-- Replace the first provider with a matching name (the
`iter_mut().find(...)` update of `update_provider_only`'s `Update` arm). -/
def replaceFirstProvider (provider : CcrProvider) :
    List CcrProvider → List CcrProvider
  | [] => []
  | q :: rest =>
      if decide (q.name = provider.name) then provider :: rest
      else q :: replaceFirstProvider provider rest

/-- `CcrConfigManager::update_provider_only` (`src/ccr_config.rs` lines
433-491): load, apply exactly one change to the `Providers` list (with the
per-operation validation and existence checks), back up if the file
exists, write. -/
def CcrConfigManager.update_provider_only (st : CcrState)
    (provider : CcrProvider) (operation : ProviderOperation) :
    Except AppError Unit × CcrState :=
  let config := CcrConfigManager.load_config st
  match operation with
  | .Add =>
      match provider.validate with
      | .error e => (.error e, st)
      | .ok _ =>
          if config.Providers.any (fun p => decide (p.name = provider.name)) then
            (.error (.Config ("Provider " ++ provider.name ++ " 已存在")), st)
          else
            (.ok (), CcrConfigManager.backupAndWrite st
              { config with Providers := config.Providers ++ [provider] })
  | .Update =>
      match provider.validate with
      | .error e => (.error e, st)
      | .ok _ =>
          if config.Providers.any (fun p => decide (p.name = provider.name)) then
            (.ok (), CcrConfigManager.backupAndWrite st
              { config with
                  Providers := replaceFirstProvider provider config.Providers })
          else
            (.error (.Config ("Provider " ++ provider.name ++ " 不存在")), st)
  | .Remove =>
      let newProviders :=
        config.Providers.filter (fun p => !decide (p.name = provider.name))
      if decide (newProviders.length = config.Providers.length) then
        (.error (.Config ("Provider " ++ provider.name ++ " 不存在")), st)
      else
        (.ok (), CcrConfigManager.backupAndWrite st
          { config with Providers := newProviders })

/-- The kind-less placeholder provider built by
`CcrConfigManager::remove_provider` (`src/ccr_config.rs` lines 138-145). -/
def tempRemovalProvider (name : String) : CcrProvider :=
  { name := name, api_base_url := "", api_key := "", models := [],
    transformer := none, provider_type := none }

/-- `CcrConfigManager::remove_provider` (`src/ccr_config.rs` lines
136-150). -/
def CcrConfigManager.remove_provider (st : CcrState) (name : String) :
    Except AppError Unit × CcrState :=
  CcrConfigManager.update_provider_only st (tempRemovalProvider name) .Remove


/-- `DefaultProfile` from `src/config.rs` lines 712-716. -/
structure DefaultProfile where
  direct : Option String
  ccr : Option String
deriving DecidableEq, Repr

/-- The `HashMap<String, T>` collections of the Profile Store, modelled as
association lists keyed by unique names. -/
abbrev ProfileMap (α : Type) := List (String × α)

/-- `HashMap::contains_key`. -/
def containsKey (m : ProfileMap α) (k : String) : Bool :=
  m.any (fun kv => decide (kv.1 = k))

/-- `HashMap::get`. -/
def findEntry (m : ProfileMap α) (k : String) : Option α :=
  (m.find? (fun kv => decide (kv.1 = k))).map (fun kv => kv.2)

/-- `HashMap::insert`: replace the value when the key is present, append
otherwise. -/
def insertEntry (m : ProfileMap α) (k : String) (v : α) : ProfileMap α :=
  if containsKey m k then
    m.map (fun kv => if decide (kv.1 = k) then (k, v) else kv)
  else m ++ [(k, v)]

/-- `Groups` from `src/config.rs` lines 719-723. -/
structure Groups where
  direct : ProfileMap DirectProfile
  ccr : ProfileMap CcrProfile
deriving DecidableEq, Repr

/-- `Config` from `src/config.rs` lines 726-740: the Profile Store
document, including the two trailing legacy fields. -/
structure Config where
  version : String
  default_group : Option String
  default_profile : Option DefaultProfile
  groups : Groups
  default : Option String
  profiles : Option (ProfileMap DirectProfile)
deriving DecidableEq, Repr

/-- `Config::migrate_legacy_format` from `src/config.rs` lines 796-824. -/
def Config.migrate_legacy_format (c : Config) : Config :=
  let c1 :=
    match c.profiles with
    | some ps =>
        { c with
            groups := { c.groups with
              direct := ps.foldl
                (fun (m : ProfileMap DirectProfile)
                     (kv : String × DirectProfile) => insertEntry m kv.1 kv.2)
                c.groups.direct }
            profiles := none }
    | none => c
  let c2 :=
    match c1.default with
    | some old_default =>
        { c1 with
            default_profile :=
              some (match c1.default_profile with
                | none => { direct := some old_default, ccr := none }
                | some dp =>
                    if dp.direct.isNone then { dp with direct := some old_default }
                    else dp)
            default := none }
    | none => c1
  if c2.default_group.isNone then { c2 with default_group := some "direct" }
  else c2

/-- `Config::validate_direct_profile` from `src/config.rs` lines
1184-1204. -/
def validate_direct_profile (profile : DirectProfile) : Except AppError Unit :=
  if isBlank profile.anthropic_auth_token then
    .error (.InvalidConfig "认证令牌不能为空")
  else if isBlank profile.anthropic_base_url then
    .error (.InvalidConfig "基础URL不能为空")
  else if !strStartsWith profile.anthropic_base_url "http://"
      && !strStartsWith profile.anthropic_base_url "https://" then
    .error (.InvalidConfig "基础URL格式无效，应以http://或https://开头")
  else .ok ()

/-- `Config::add_direct_profile` from `src/config.rs` lines 841-864,
returning the error together with the (unchanged on failure) store. -/
def Config.add_direct_profile (c : Config) (name : String)
    (profile : DirectProfile) : Except AppError Unit × Config :=
  if containsKey c.groups.direct name then
    (.error (.Config ("配置 " ++ name ++ " 已存在")), c)
  else
    match validate_direct_profile profile with
    | .error e => (.error e, c)
    | .ok _ =>
      let newDirect := c.groups.direct ++ [(name, profile)]
      let c1 := { c with groups := { c.groups with direct := newDirect } }
      if decide (newDirect.length = 1) then
        (.ok (), { c1 with
          default_profile :=
            some (match c1.default_profile with
              | some dp => { dp with direct := some name }
              | none => { direct := some name, ccr := none }) })
      else (.ok (), c1)

/-- `Config::add_ccr_profile` from `src/config.rs` lines 867-890. -/
def Config.add_ccr_profile (c : Config) (name : String)
    (profile : CcrProfile) : Except AppError Unit × Config :=
  if containsKey c.groups.ccr name then
    (.error (.Config ("配置 " ++ name ++ " 已存在")), c)
  else
    match profile.validate with
    | .error e => (.error e, c)
    | .ok _ =>
      let newCcr := c.groups.ccr ++ [(name, profile)]
      let c1 := { c with groups := { c.groups with ccr := newCcr } }
      if decide (newCcr.length = 1) then
        (.ok (), { c1 with
          default_profile :=
            some (match c1.default_profile with
              | some dp => { dp with ccr := some name }
              | none => { direct := none, ccr := some name }) })
      else (.ok (), c1)

/-- `Config::get_direct_profile` from `src/config.rs` lines 959-964. -/
def Config.get_direct_profile (c : Config) (name : String) :
    Except AppError DirectProfile :=
  match findEntry c.groups.direct name with
  | some p => .ok p
  | none => .error (.ProfileNotFound name)

/-- `Config::get_ccr_profile` from `src/config.rs` lines 967-972. -/
def Config.get_ccr_profile (c : Config) (name : String) :
    Except AppError CcrProfile :=
  match findEntry c.groups.ccr name with
  | some p => .ok p
  | none => .error (.ProfileNotFound name)

/-- `Config::get_default_direct_profile` from `src/config.rs` lines
1004-1013. -/
def Config.get_default_direct_profile (c : Config) :
    Except AppError (String × DirectProfile) :=
  match c.default_profile.bind (fun dp => dp.direct) with
  | none => .error (.Config "未设置默认Direct配置")
  | some default_name =>
      match c.get_direct_profile default_name with
      | .error e => .error e
      | .ok p => .ok (default_name, p)

/-- `Config::get_default_ccr_profile` from `src/config.rs` lines
1016-1025. -/
def Config.get_default_ccr_profile (c : Config) :
    Except AppError (String × CcrProfile) :=
  match c.default_profile.bind (fun dp => dp.ccr) with
  | none => .error (.Config "未设置默认CCR配置")
  | some default_name =>
      match c.get_ccr_profile default_name with
      | .error e => .error e
      | .ok p => .ok (default_name, p)

/-- Modelled from the spec: `RouterProfile` (`{name, route_set,
description, created_at}`, spec section 3) is declared in this
repository's `config.rs` but missing from `src/`; only its consumers in
`src/ccr_config.rs` and `src/commands.rs` are present. -/
structure RouterProfile where
  name : String
  router : CcrRouter
  description : Option String
  created_at : Option String
deriving DecidableEq, Repr

/-- Modelled from the spec: `RouterProfile::new` is fallible in the source
(`RouterProfile::new(...)?`); per spec section 4.3 the store validates the
value, so construction validates the route set. -/
def RouterProfile.new (name : String) (router : CcrRouter)
    (description : Option String) : Except AppError RouterProfile :=
  match router.validate with
  | .error e => .error e
  | .ok _ =>
      .ok { name := name, router := router, description := description,
            created_at := none }

/-- Modelled from the spec: the Profile Store's router collection
(`groups.router` plus `defaults.router_name`, spec section 3); the
collection operations used by the missing `Config` methods
(`add_router_profile`, `get_router_profile`) follow spec section 4.3 and
mirror the in-`src` `Config::add_ccr_profile` / `Config::get_ccr_profile`
shape. -/
structure LocalRouterStore where
  router : ProfileMap RouterProfile
  default_router : Option String
deriving DecidableEq, Repr

/-- The default (empty) local store, as produced by
`Config::load().unwrap_or_default()` when no local document exists. -/
def LocalRouterStore.empty : LocalRouterStore :=
  { router := [], default_router := none }

/-- Modelled from the spec: `add(name, value)` on the router collection —
`AlreadyExists` when the key is taken, validate the value, insert, promote
to default exactly when the collection was previously empty. -/
def LocalRouterStore.add_router_profile (c : LocalRouterStore) (name : String)
    (rp : RouterProfile) : Except AppError LocalRouterStore :=
  if containsKey c.router name then
    .error (.Config ("配置 " ++ name ++ " 已存在"))
  else
    match rp.router.validate with
    | .error e => .error e
    | .ok _ =>
      let newRouter := c.router ++ [(name, rp)]
      .ok { router := newRouter
            default_router :=
              if decide (newRouter.length = 1) then some name
              else c.default_router }

/-- Modelled from the spec: `get(name)` on the router collection — the
missing `Config::get_router_profile`, mirroring `Config::get_ccr_profile`. -/
def LocalRouterStore.get_router_profile (c : LocalRouterStore)
    (name : String) : Except AppError RouterProfile :=
  match findEntry c.router name with
  | some p => .ok p
  | none => .error (.ProfileNotFound name)

/-- `RouterProfileStatus` from `src/ccr_config.rs` lines 522-530. -/
inductive RouterProfileStatus where
  | LocalExists
  | GeneratedDefault
  | NeedCreateProvider
deriving DecidableEq, Repr

/-- `CcrConfigManager::generate_default_router_profile`
(`src/ccr_config.rs` lines 257-286): no providers yields `None`;
cross-reference problems are only warnings (printed, not returned); the
profile named `default` is synthesized from the document's current route
set. -/
def CcrConfigManager.generate_default_router_profile (ccr : CcrState) :
    Except AppError (Option RouterProfile) :=
  let ccr_config := CcrConfigManager.load_config ccr
  if ccr_config.Providers.isEmpty then .ok none
  else
    match RouterProfile.new "default" ccr_config.Router
        (some "从 claude-code-router 配置自动生成") with
    | .error e => .error e
    | .ok rp => .ok (some rp)

/-- `CcrConfigManager::ensure_router_profile_exists` (`src/ccr_config.rs`
lines 228-254), over the local store state (`none` when no local document
exists) and the reconciler state.  Returns the outcome together with the
resulting local store state (the `GeneratedDefault` branch persists the
synthesized profile). -/
def CcrConfigManager.ensure_router_profile_exists
    (localFile : Option LocalRouterStore) (ccr : CcrState) :
    Except AppError RouterProfileStatus × Option LocalRouterStore :=
  let local_config := localFile.getD LocalRouterStore.empty
  if !local_config.router.isEmpty then (.ok .LocalExists, localFile)
  else if ccr.file.isNone then (.ok .NeedCreateProvider, localFile)
  else
    let ccr_config := CcrConfigManager.load_config ccr
    if ccr_config.Providers.isEmpty then (.ok .NeedCreateProvider, localFile)
    else
      match CcrConfigManager.generate_default_router_profile ccr with
      | .error e => (.error e, localFile)
      | .ok none => (.ok .NeedCreateProvider, localFile)
      | .ok (some router_profile) =>
          match local_config.add_router_profile "default" router_profile with
          | .error e => (.error e, localFile)
          | .ok saved => (.ok .GeneratedDefault, some saved)

/-- `CcrConfigManager::get_router_profile` (`src/ccr_config.rs` lines
306-332): local lookup first; for the missing name `default` run the
bootstrap state machine and retry the lookup once after a successful
`GeneratedDefault`; other missing names fail with `ProfileNotFound`
directly. -/
def CcrConfigManager.get_router_profile
    (localFile : Option LocalRouterStore) (ccr : CcrState) (name : String) :
    Except AppError RouterProfile × Option LocalRouterStore :=
  let config := localFile.getD LocalRouterStore.empty
  match config.get_router_profile name with
  | .ok profile => (.ok profile, localFile)
  | .error _ =>
    if decide (name = "default") then
      match CcrConfigManager.ensure_router_profile_exists localFile ccr with
      | (.ok .GeneratedDefault, localFile1) =>
          (match localFile1 with
           | some updated_config => (updated_config.get_router_profile name, localFile1)
           | none => (.error .ConfigNotFound, localFile1))
      | (.ok .NeedCreateProvider, localFile1) =>
          (.error (.Config
            "暂无 Provider 配置，请先使用 ccode provider add 添加 Provider"),
           localFile1)
      | (.ok .LocalExists, localFile1) =>
          (.error (.ProfileNotFound name), localFile1)
      | (.error e, localFile1) => (.error e, localFile1)
    else (.error (.ProfileNotFound name), localFile)

/-- A wall-clock instant at second resolution, as consumed by the
`Utc::now().format("%Y%m%d_%H%M%S")` call in
`CcrManager::create_backup` (`src/ccr_manager.rs` lines 69-71). -/
structure Timestamp where
  year : Nat
  month : Nat
  day : Nat
  hour : Nat
  minute : Nat
  second : Nat
deriving DecidableEq, Repr

/-- Field ranges under which the chrono format specifiers produce their
fixed widths (the real calendar ranges are tighter). -/
def Timestamp.valid (t : Timestamp) : Prop :=
  t.year < 10000 ∧ t.month < 100 ∧ t.day < 100 ∧ t.hour < 100 ∧
    t.minute < 100 ∧ t.second < 100

instance (t : Timestamp) : Decidable t.valid := by
  unfold Timestamp.valid; infer_instance

/-- Zero-padded decimal rendering of `n`, `w` digits wide, most
significant digit first (the behavior of chrono's `%Y`/`%m`/`%d`/`%H`/
`%M`/`%S` on in-range values). -/
def padDigits : Nat → Nat → List Char
  | 0, _ => []
  | w + 1, n => Nat.digitChar (n / 10 ^ w % 10) :: padDigits w n

/-- The backup file name characters generated by
`CcrManager::create_backup`: `config_backup_` ++ `%Y%m%d` ++ `_` ++
`%H%M%S` ++ `.json`. -/
def backupChars (t : Timestamp) : List Char :=
  "config_backup_".data
    ++ padDigits 4 t.year ++ padDigits 2 t.month ++ padDigits 2 t.day
    ++ ['_'] ++ padDigits 2 t.hour ++ padDigits 2 t.minute
    ++ padDigits 2 t.second ++ ".json".data

/-- The backup file name string. -/
def backup_filename (t : Timestamp) : String :=
  String.mk (backupChars t)

/-- `CcrManager::create_backup` (`src/ccr_manager.rs` lines 54-79) at the
level of the generated name: fails when the config file does not exist,
otherwise returns the timestamped name of the content-identical copy
placed in the `backups` subdirectory. -/
def CcrManager.create_backup (configExists : Bool) (t : Timestamp) :
    Except AppError String :=
  if !configExists then
    .error (.Config "CCR配置文件不存在，无法创建备份")
  else .ok (backup_filename t)

/-- Strict byte-wise (character-wise) lexicographic comparison, the order
Rust's `str::cmp` uses on ASCII names. -/
def charsLt : List Char → List Char → Bool
  | [], [] => false
  | [], _ :: _ => true
  | _ :: _, [] => false
  | a :: as, b :: bs =>
      if a < b then true
      else if b < a then false
      else charsLt as bs

/-- Non-strict byte-wise lexicographic comparison. -/
def charsLe : List Char → List Char → Bool
  | [], _ => true
  | _ :: _, [] => false
  | a :: as, b :: bs =>
      if a < b then true
      else if b < a then false
      else charsLe as bs

/-- The descending string order used by `list_backups`'s
`backups.sort_by(|a, b| b.cmp(a))`. -/
def strDescend (a b : String) : Prop :=
  charsLe b.data a.data = true

instance : DecidableRel strDescend := by
  unfold strDescend; infer_instance

/-- Strict ascending string order (for stating newest-first). -/
def strAscend (a b : String) : Prop :=
  charsLt a.data b.data = true

/-- The name filter of `CcrManager::list_backups` (`src/ccr_manager.rs`
lines 92-103): a `.json` file whose name starts with `config_backup_`. -/
def isBackupFilename (f : String) : Bool :=
  strEndsWith f ".json" && strStartsWith f "config_backup_"

/-- `CcrManager::list_backups` (`src/ccr_manager.rs` lines 83-109) over
the list of file names in the backup directory: keep the backup names and
sort them descending (Rust sorts with `b.cmp(a)`; the model sorts with
insertion sort under the same descending order, which yields the same
sorted result for this total order). -/
def CcrManager.list_backups (files : List String) : List String :=
  (files.filter isBackupFilename).insertionSort strDescend

/-- The per-route acceptance condition actually enforced by
`CcrRouter::validate` on an optional route: absent, blank, or containing a
comma. -/
def routeShapeOk (o : Option String) : Bool :=
  match o with
  | none => true
  | some v => isBlank v || strContains v ","

/-- The claimed route shape: exactly one separating comma before any
modifier (a `:`-suffixed token such as `:online`). -/
def claimRouteShape (s : String) : Bool :=
  ((s.data.takeWhile (fun c => !(c == ':'))).count ',') == 1

/-- The 14-digit sortable key `YYYYMMDDHHMMSS` embedded in a backup file
name. -/
def Timestamp.key (t : Timestamp) : Nat :=
  ((((t.year * 100 + t.month) * 100 + t.day) * 100 + t.hour) * 100
      + t.minute) * 100 + t.second

/-- A route set with only the default route, for concrete runs. -/
def sampleRouter (d : String) : CcrRouter :=
  { default := d, background := none, think := none, long_context := none,
    long_context_threshold := none, web_search := none }

/-- A well-formed kind-less provider, for concrete runs. -/
def sampleProvider (n u : String) : CcrProvider :=
  { name := n, api_base_url := u, api_key := "k", models := ["m1"],
    transformer := none, provider_type := none }

/-- A Proxy Config document with the given providers and route set and no
optional scalars, for concrete runs. -/
def sampleDoc (ps : List CcrProvider) (r : CcrRouter) : CcrConfig :=
  { Providers := ps, Router := r, API_TIMEOUT_MS := none, PROXY_URL := none,
    LOG := none, APIKEY := none, HOST := none, transformers := none,
    custom_router_path := none }

/-! ## Helper lemmas -/

theorem checkOptionalRoute_error_shape (n : String) (o : Option String)
    (e : AppError) (h : checkOptionalRoute n o = .error e) :
    ∃ m, e = .InvalidConfig m := by
  cases o with
  | none => simp [checkOptionalRoute] at h
  | some v =>
      simp only [checkOptionalRoute] at h
      by_cases hc : (!(isBlank v) && !(strContains v ",")) = true
      · rw [if_pos hc] at h
        injection h with h1
        exact ⟨_, h1.symm⟩
      · rw [if_neg hc] at h
        simp at h

theorem router_validate_error_shape (r : CcrRouter) (e : AppError)
    (h : r.validate = .error e) : ∃ m, e = .InvalidConfig m := by
  unfold CcrRouter.validate at h
  by_cases h1 : isBlank r.default = true
  · rw [if_pos h1] at h
    injection h with h1'
    exact ⟨_, h1'.symm⟩
  · rw [if_neg h1] at h
    by_cases h2 : (!(strContains r.default ",")) = true
    · rw [if_pos h2] at h
      injection h with h2'
      exact ⟨_, h2'.symm⟩
    · rw [if_neg h2] at h
      rcases hb : checkOptionalRoute "background" r.background with eb | _
      · rw [hb] at h; injection h with h'
        exact checkOptionalRoute_error_shape _ _ _ (h' ▸ hb)
      · rw [hb] at h
        rcases ht : checkOptionalRoute "think" r.think with et | _
        · rw [ht] at h; injection h with h'
          exact checkOptionalRoute_error_shape _ _ _ (h' ▸ ht)
        · rw [ht] at h
          rcases hl : checkOptionalRoute "longContext" r.long_context with el | _
          · rw [hl] at h; injection h with h'
            exact checkOptionalRoute_error_shape _ _ _ (h' ▸ hl)
          · rw [hl] at h
            exact checkOptionalRoute_error_shape _ _ _ h

theorem ProviderType.validate_url_format_error_shape (t : ProviderType)
    (url : String) (e : AppError) (h : t.validate_url_format url = .error e) :
    ∃ m, e = .InvalidConfig m := by
  unfold ProviderType.validate_url_format at h
  cases t <;> simp only at h <;>
    · split at h
      · injection h with h1; exact ⟨_, h1.symm⟩
      · simp at h

theorem provider_validate_error_shape (p : CcrProvider) (e : AppError)
    (h : p.validate = .error e) : ∃ m, e = .InvalidConfig m := by
  unfold CcrProvider.validate at h
  split at h
  · injection h with h1; exact ⟨_, h1.symm⟩
  · split at h
    · injection h with h1; exact ⟨_, h1.symm⟩
    · split at h
      · injection h with h1; exact ⟨_, h1.symm⟩
      · split at h
        · injection h with h1; exact ⟨_, h1.symm⟩
        · split at h
          · exact ProviderType.validate_url_format_error_shape _ _ _ h
          · simp at h

theorem validateProviders_error_shape (l : List CcrProvider) (e : AppError)
    (h : validateProviders l = .error e) : ∃ m, e = .InvalidConfig m := by
  induction l with
  | nil => simp [validateProviders] at h
  | cons p rest ih =>
      simp only [validateProviders] at h
      rcases hv : p.validate with ev | u
      · rw [hv] at h
        injection h with h1
        exact provider_validate_error_shape p _ (h1 ▸ hv)
      · rw [hv] at h
        exact ih h

theorem firstDanglingRoute_eq_none_iff (names : List String)
    (routes : List (String × String)) :
    firstDanglingRoute names routes = none ↔
      ∀ nv ∈ routes, nameMem names (providerSegment nv.2) = true := by
  induction routes with
  | nil => simp [firstDanglingRoute]
  | cons nv rest ih =>
      obtain ⟨n, v⟩ := nv
      by_cases hm : nameMem names (providerSegment v) = true
      · simp [firstDanglingRoute, hm, ih]
      · simp [firstDanglingRoute, hm]

/-! ## C10 -/

/-- C10: the default-pointer lookup distinguishes an unset pointer from a
dangling one — `get_default_direct_profile` fails with the `Config` error
(no default configured) exactly when the `defaults` pointer for the direct
collection is unset, and fails with `ProfileNotFound n` when the pointer
names an `n` that keys no entry; symmetrically for
`get_default_ccr_profile`. -/
theorem c10_default_pointer_unset_vs_dangling (c : Config) :
    (c.get_default_direct_profile = .error (.Config "未设置默认Direct配置")
        ↔ c.default_profile.bind (fun dp => dp.direct) = none)
    ∧ (∀ n, c.default_profile.bind (fun dp => dp.direct) = some n →
        findEntry c.groups.direct n = none →
        c.get_default_direct_profile = .error (.ProfileNotFound n))
    ∧ (c.get_default_ccr_profile = .error (.Config "未设置默认CCR配置")
        ↔ c.default_profile.bind (fun dp => dp.ccr) = none)
    ∧ (∀ n, c.default_profile.bind (fun dp => dp.ccr) = some n →
        findEntry c.groups.ccr n = none →
        c.get_default_ccr_profile = .error (.ProfileNotFound n)) := by
  refine ⟨?_, ?_, ?_, ?_⟩
  · rcases hd : c.default_profile.bind (fun dp => dp.direct) with _ | n
    · simp [Config.get_default_direct_profile, hd]
    · simp only [Config.get_default_direct_profile, hd]
      rcases hf : findEntry c.groups.direct n with _ | p <;>
        simp [Config.get_direct_profile, hf]
  · intro n hd hf
    simp [Config.get_default_direct_profile, hd, Config.get_direct_profile, hf]
  · rcases hd : c.default_profile.bind (fun dp => dp.ccr) with _ | n
    · simp [Config.get_default_ccr_profile, hd]
    · simp only [Config.get_default_ccr_profile, hd]
      rcases hf : findEntry c.groups.ccr n with _ | p <;>
        simp [Config.get_ccr_profile, hf]
  · intro n hd hf
    simp [Config.get_default_ccr_profile, hd, Config.get_ccr_profile, hf]

/-- Witness for C10: on a store whose direct pointer names a missing
profile, the lookup fails with `ProfileNotFound`. -/
theorem c10_witness :
    ({ version := "1.0", default_group := some "direct",
       default_profile := some { direct := some "x", ccr := none },
       groups := { direct := [], ccr := [] },
       default := none, profiles := none } : Config).default_profile.bind
        (fun dp => dp.direct) = some "x"
    ∧ ({ version := "1.0", default_group := some "direct",
         default_profile := some { direct := some "x", ccr := none },
         groups := { direct := [], ccr := [] },
         default := none, profiles := none } : Config).get_default_direct_profile
        = .error (.ProfileNotFound "x") :=
  ⟨by decide,
   (c10_default_pointer_unset_vs_dangling _).2.1 "x" (by decide) (by decide)⟩

/-! ## C9 -/

/-- C9: provider validation applies the variant-specific URL-shape rule
only when a provider kind is declared — a provider with `provider_type`
`None` validates whenever its name is non-blank, its URL is non-blank and
starts with `http://` or `https://`, and its model list is non-empty
(no path-shape check); the `Remove` path constructs such a kind-less
provider (which itself fails content validation) and still succeeds
whenever the name matches, bypassing content validation. -/
theorem c9_kindless_provider_validation :
    (∀ p : CcrProvider, p.provider_type = none →
      isBlank p.name = false → isBlank p.api_base_url = false →
      (strStartsWith p.api_base_url "http://" = true ∨
        strStartsWith p.api_base_url "https://" = true) →
      p.models ≠ [] → p.validate = .ok ())
    ∧ (∀ n, (tempRemovalProvider n).validate ≠ .ok ())
    ∧ (∀ st n,
        (CcrConfigManager.load_config st).Providers.any
            (fun p => decide (p.name = n)) = true →
        (CcrConfigManager.remove_provider st n).1 = .ok ()) := by
  refine ⟨?_, ?_, ?_⟩
  · intro p ht hn hu hs hm
    have hstart : (!strStartsWith p.api_base_url "http://"
        && !strStartsWith p.api_base_url "https://") = false := by
      rcases hs with hs | hs <;> simp [hs]
    have hme : p.models.isEmpty = false := by
      cases hml : p.models with
      | nil => exact absurd hml hm
      | cons a l => simp
    simp [CcrProvider.validate, hn, hu, hstart, hme, ht]
  · intro n
    by_cases hb : isBlank n = true
    · simp [CcrProvider.validate, tempRemovalProvider, hb]
    · simp only [CcrProvider.validate, tempRemovalProvider]
      split <;> simp [isBlank]
  · intro st n hany
    have hlt : ((CcrConfigManager.load_config st).Providers.filter
        (fun p => !decide (p.name = n))).length
        < (CcrConfigManager.load_config st).Providers.length := by
      rw [List.length_filter_lt_length_iff_exists]
      rcases List.any_eq_true.mp hany with ⟨p, hp, hpn⟩
      exact ⟨p, hp, by simpa using of_decide_eq_true hpn⟩
    have hne : ¬ (((CcrConfigManager.load_config st).Providers.filter
        (fun p => !decide (p.name = n))).length
        = (CcrConfigManager.load_config st).Providers.length) :=
      Nat.ne_of_lt hlt
    simp only [CcrConfigManager.remove_provider,
      CcrConfigManager.update_provider_only, tempRemovalProvider]
    simp [hne]

/-- Witness for C9: a concrete kind-less provider with a URL that matches
no variant path shape still validates. -/
theorem c9_witness :
    strContains "https://x" "/chat/completions" = false
    ∧ ({ name := "acme", api_base_url := "https://x", api_key := "",
         models := ["m"], transformer := none,
         provider_type := none } : CcrProvider).validate = .ok () :=
  ⟨by decide,
   c9_kindless_provider_validation.1 _ rfl (by decide) (by decide)
     (Or.inr (by decide)) (by decide)⟩

/-! ## C5 -/

theorem checkOptionalRoute_ok_iff (n : String) (o : Option String) :
    checkOptionalRoute n o = .ok () ↔ routeShapeOk o = true := by
  cases o with
  | none => simp [checkOptionalRoute, routeShapeOk]
  | some v =>
      simp only [checkOptionalRoute, routeShapeOk]
      by_cases hc : (!(isBlank v) && !(strContains v ",")) = true
      · rcases Bool.and_eq_true .. |>.mp hc with ⟨hb1, hb2⟩
        simp [hc, Bool.not_eq_true'] at hb1 hb2 ⊢
        simp [hb1, hb2]
      · rw [if_neg hc]
        simp only [Bool.and_eq_true, Bool.not_eq_true'] at hc
        simp only [eq_self_iff_true, true_iff]
        rcases Decidable.not_and_iff_or_not.mp hc with h | h <;>
          simp [Bool.not_eq_false] at h <;> simp [h]

theorem checkOptionalRoute_error_false (n : String) (o : Option String)
    (e : AppError) (h : checkOptionalRoute n o = .error e) :
    routeShapeOk o = false := by
  by_cases hs : routeShapeOk o = true
  · rw [(checkOptionalRoute_ok_iff n o).mpr hs] at h
    cases h
  · simpa using hs

/-- C5 counterexample: `a,b,c` has two separating commas and no modifier,
so the claim rejects it, yet `CcrRouter::validate` accepts the route set
whose default is `a,b,c` (the code only requires at least one comma). -/
theorem c5_counterexample :
    claimRouteShape "a,b,c" = false
    ∧ CcrRouter.validate
        { default := "a,b,c", background := none, think := none,
          long_context := none, long_context_threshold := none,
          web_search := none } = .ok () := by
  constructor <;> decide

/-- C5 (amended): route-set validation accepts exactly the route sets
whose default is non-blank and contains at least one comma and whose
present, non-blank optional routes each contain at least one comma
(not: exactly one comma); violations are rejected with `InvalidConfig`. -/
theorem c5_amended_route_set_validation (r : CcrRouter) :
    (r.validate = .ok () ↔
      (isBlank r.default = false ∧ strContains r.default "," = true ∧
       routeShapeOk r.background = true ∧ routeShapeOk r.think = true ∧
       routeShapeOk r.long_context = true ∧ routeShapeOk r.web_search = true))
    ∧ (∀ e, r.validate = .error e → ∃ m, e = .InvalidConfig m) := by
  refine ⟨?_, fun e h => router_validate_error_shape r e h⟩
  unfold CcrRouter.validate
  rcases hb : checkOptionalRoute "background" r.background with eb | ⟨⟩ <;>
    rcases ht : checkOptionalRoute "think" r.think with et | ⟨⟩ <;>
      rcases hl : checkOptionalRoute "longContext" r.long_context with el | ⟨⟩ <;>
        by_cases h1 : isBlank r.default = true <;>
          by_cases h2 : strContains r.default "," = true
  all_goals try have hb2 : routeShapeOk r.background = false :=
    checkOptionalRoute_error_false _ _ _ hb
  all_goals try have hb2 : routeShapeOk r.background = true :=
    (checkOptionalRoute_ok_iff _ _).mp hb
  all_goals try have ht2 : routeShapeOk r.think = false :=
    checkOptionalRoute_error_false _ _ _ ht
  all_goals try have ht2 : routeShapeOk r.think = true :=
    (checkOptionalRoute_ok_iff _ _).mp ht
  all_goals try have hl2 : routeShapeOk r.long_context = false :=
    checkOptionalRoute_error_false _ _ _ hl
  all_goals try have hl2 : routeShapeOk r.long_context = true :=
    (checkOptionalRoute_ok_iff _ _).mp hl
  all_goals simp [h1, h2, hb, ht, hl, hb2, ht2, hl2, checkOptionalRoute_ok_iff]

/-- Witness for C5: a blank default route is rejected, and the rejection
is an `InvalidConfig` error. -/
theorem c5_witness :
    CcrRouter.validate
      { default := " ", background := some "nocomma", think := none,
        long_context := none, long_context_threshold := none,
        web_search := none } = .error (.InvalidConfig "默认路由配置不能为空")
    ∧ (∃ m, (AppError.InvalidConfig "默认路由配置不能为空") = .InvalidConfig m) :=
  ⟨by decide,
   (c5_amended_route_set_validation
     { default := " ", background := some "nocomma", think := none,
       long_context := none, long_context_threshold := none,
       web_search := none }).2 _ (by decide)⟩

/-! ## C1 -/

theorem firstDanglingRoute_isSome_of_dangling (names : List String)
    (routes : List (String × String))
    (h : ∃ nv ∈ routes, nameMem names (providerSegment nv.2) = false) :
    ∃ x, firstDanglingRoute names routes = some x := by
  rcases hfd : firstDanglingRoute names routes with _ | x
  · rcases h with ⟨nv, hmem, hfalse⟩
    have := (firstDanglingRoute_eq_none_iff names routes).mp hfd nv hmem
    simp [this] at hfalse
  · exact ⟨x, rfl⟩

/-- C1: referential integrity gate — a route set containing a route whose
provider segment names no declared provider is rejected by
`update_router_only` with `InvalidConfig`, leaving the on-disk document
unchanged; likewise full-document save (and the underlying
`CcrProfile::validate`) rejects any document containing such a dangling
route, so it is never persisted. -/
theorem c1_referential_integrity_gate :
    (∀ (st : CcrState) (r : CcrRouter),
      (∃ nv ∈ r.get_all_routes,
        nameMem ((CcrConfigManager.load_config st).Providers.map
          (fun p => p.name)) (providerSegment nv.2) = false) →
      (∃ m, (CcrConfigManager.update_router_only st r).1
          = .error (.InvalidConfig m))
      ∧ (CcrConfigManager.update_router_only st r).2 = st)
    ∧ (∀ (st : CcrState) (doc : CcrConfig),
      (∃ nv ∈ doc.Router.get_all_routes,
        nameMem (doc.Providers.map (fun p => p.name))
          (providerSegment nv.2) = false) →
      (∃ m, (CcrConfigManager.save_config st doc).1
          = .error (.InvalidConfig m))
      ∧ (CcrConfigManager.save_config st doc).2 = st)
    ∧ (∀ profile : CcrProfile,
      (∃ nv ∈ profile.router.get_all_routes,
        nameMem (profile.providers.map (fun p => p.name))
          (providerSegment nv.2) = false) →
      ∃ m, profile.validate = .error (.InvalidConfig m)) := by
  refine ⟨?_, ?_, ?_⟩
  · intro st r hdangling
    unfold CcrConfigManager.update_router_only
    rcases hv : r.validate with ev | ⟨⟩
    · rcases router_validate_error_shape r ev hv with ⟨m, hm⟩
      exact ⟨⟨m, by simp [hm]⟩, rfl⟩
    · rcases firstDanglingRoute_isSome_of_dangling _ _ hdangling with ⟨⟨rn, rv⟩, hfd⟩
      simp only [hfd]
      exact ⟨⟨_, rfl⟩, trivial⟩
  · intro st doc hdangling
    unfold CcrConfigManager.save_config CcrConfig.validate
    rcases hp : validateProviders doc.Providers with ep | ⟨⟩
    · rcases validateProviders_error_shape _ ep hp with ⟨m, hm⟩
      exact ⟨⟨m, by simp [hm]⟩, rfl⟩
    · rcases hv : doc.Router.validate with ev | ⟨⟩
      · rcases router_validate_error_shape _ ev hv with ⟨m, hm⟩
        exact ⟨⟨m, by simp [hm]⟩, rfl⟩
      · rcases firstDanglingRoute_isSome_of_dangling _ _ hdangling with ⟨⟨rn, rv⟩, hfd⟩
        simp only [hfd]
        exact ⟨⟨_, rfl⟩, trivial⟩
  · intro profile hdangling
    unfold CcrProfile.validate
    by_cases he : profile.providers.isEmpty = true
    · simp [he]
    · rw [if_neg he]
      rcases hp : validateProviders profile.providers with ep | ⟨⟩
      · rcases validateProviders_error_shape _ ep hp with ⟨m, hm⟩
        exact ⟨m, by simp [hm]⟩
      · rcases hv : profile.router.validate with ev | ⟨⟩
        · rcases router_validate_error_shape _ ev hv with ⟨m, hm⟩
          exact ⟨m, by simp [hm]⟩
        · rcases firstDanglingRoute_isSome_of_dangling _ _ hdangling with ⟨⟨rn, rv⟩, hfd⟩
          simp only [hfd]
          exact ⟨_, rfl⟩

/-- Witness for C1: with an empty provider list on disk, updating to the
route set `ghost,m1` fails with `InvalidConfig` and leaves the state
unchanged. -/
theorem c1_witness :
    (∃ nv ∈ (sampleRouter "ghost,m1").get_all_routes,
      nameMem ((CcrConfigManager.load_config
          { file := some (sampleDoc [] (sampleRouter "a,m")), backups := [] }).Providers.map
        (fun p => p.name)) (providerSegment nv.2) = false)
    ∧ (∃ m, (CcrConfigManager.update_router_only
        { file := some (sampleDoc [] (sampleRouter "a,m")), backups := [] }
        (sampleRouter "ghost,m1")).1 = .error (.InvalidConfig m))
    ∧ (CcrConfigManager.update_router_only
        { file := some (sampleDoc [] (sampleRouter "a,m")), backups := [] }
        (sampleRouter "ghost,m1")).2
      = { file := some (sampleDoc [] (sampleRouter "a,m")), backups := [] } :=
  ⟨by decide,
   (c1_referential_integrity_gate.1 _ _ (by decide)).1,
   (c1_referential_integrity_gate.1 _ _ (by decide)).2⟩

/-! ## C2 -/

theorem filter_length_ne_of_any (l : List CcrProvider) (n : String)
    (h : l.any (fun p => decide (p.name = n)) = true) :
    ¬((l.filter (fun p => !decide (p.name = n))).length = l.length) := by
  apply Nat.ne_of_lt
  rw [List.length_filter_lt_length_iff_exists]
  rcases List.any_eq_true.mp h with ⟨p, hp, hpn⟩
  exact ⟨p, hp, by simpa using of_decide_eq_true hpn⟩

/-- C2: partial-update isolation — a successful `update_router_only`
writes the loaded document with only the `Router` field replaced (all
other fields of the document are carried over unchanged), and a
successful `update_provider_only` writes the loaded document with only
the `Providers` list changed by exactly the requested operation (append
for `Add`, first-match replacement for `Update`, name filtering for
`Remove`), leaving `Router` and every other field unchanged. -/
theorem c2_partial_update_isolation :
    (∀ (st : CcrState) (r : CcrRouter),
      r.validate = .ok () →
      firstDanglingRoute
          ((CcrConfigManager.load_config st).Providers.map (fun p => p.name))
          r.get_all_routes = none →
      (CcrConfigManager.update_router_only st r).1 = .ok ()
      ∧ (CcrConfigManager.update_router_only st r).2.file
          = some { CcrConfigManager.load_config st with Router := r })
    ∧ (∀ (st : CcrState) (p : CcrProvider),
      p.validate = .ok () →
      (CcrConfigManager.load_config st).Providers.any
          (fun q => decide (q.name = p.name)) = false →
      (CcrConfigManager.update_provider_only st p .Add).1 = .ok ()
      ∧ (CcrConfigManager.update_provider_only st p .Add).2.file
          = some { CcrConfigManager.load_config st with
              Providers := (CcrConfigManager.load_config st).Providers ++ [p] })
    ∧ (∀ (st : CcrState) (p : CcrProvider),
      p.validate = .ok () →
      (CcrConfigManager.load_config st).Providers.any
          (fun q => decide (q.name = p.name)) = true →
      (CcrConfigManager.update_provider_only st p .Update).1 = .ok ()
      ∧ (CcrConfigManager.update_provider_only st p .Update).2.file
          = some { CcrConfigManager.load_config st with
              Providers := replaceFirstProvider p
                (CcrConfigManager.load_config st).Providers })
    ∧ (∀ (st : CcrState) (p : CcrProvider),
      (CcrConfigManager.load_config st).Providers.any
          (fun q => decide (q.name = p.name)) = true →
      (CcrConfigManager.update_provider_only st p .Remove).1 = .ok ()
      ∧ (CcrConfigManager.update_provider_only st p .Remove).2.file
          = some { CcrConfigManager.load_config st with
              Providers := (CcrConfigManager.load_config st).Providers.filter
                (fun q => !decide (q.name = p.name)) }) := by
  refine ⟨?_, ?_, ?_, ?_⟩
  · intro st r hv hfd
    unfold CcrConfigManager.update_router_only
    rw [hv]
    simp only [hfd]
    refine ⟨?_, ?_⟩ <;> first | rfl | trivial
  · intro st p hv hex
    unfold CcrConfigManager.update_provider_only
    rw [hv]
    simp only [hex]
    refine ⟨?_, ?_⟩ <;> first | rfl | trivial
  · intro st p hv hex
    unfold CcrConfigManager.update_provider_only
    rw [hv]
    simp only [hex]
    refine ⟨?_, ?_⟩ <;> first | rfl | trivial
  · intro st p hex
    unfold CcrConfigManager.update_provider_only
    simp only [decide_eq_true_eq]
    rw [if_neg (by simpa using filter_length_ne_of_any _ _ hex)]
    refine ⟨?_, ?_⟩ <;> first | rfl | trivial

/-- Witness for C2: adding a fresh provider to an absent document writes
the default document with exactly that provider appended. -/
theorem c2_witness :
    CcrProvider.validate (sampleProvider "acme" "https://x") = .ok ()
    ∧ (CcrConfigManager.update_provider_only { file := none, backups := [] }
        (sampleProvider "acme" "https://x") .Add).1 = .ok ()
    ∧ (CcrConfigManager.update_provider_only { file := none, backups := [] }
        (sampleProvider "acme" "https://x") .Add).2.file
      = some { CcrConfigManager.load_config { file := none, backups := [] } with
          Providers := (CcrConfigManager.load_config
              { file := none, backups := [] }).Providers
            ++ [sampleProvider "acme" "https://x"] } :=
  ⟨by decide,
   (c2_partial_update_isolation.2.1 _ _ (by decide) (by decide)).1,
   (c2_partial_update_isolation.2.1 _ _ (by decide) (by decide)).2⟩

/-! ## C3 -/

/-- C3 counterexample: with provider `acme` on disk, `Add` of a payload
named `acme` whose base URL is blank fails with the `InvalidConfig`
validation error, not the already-exists error — `provider.validate()?`
runs before the existence check, so the claim's "when the provider name
already exists fails with AlreadyExists" does not hold for invalid
payloads (the state is still left unchanged). -/
theorem c3_counterexample :
    ((CcrConfigManager.load_config
        { file := some (sampleDoc [sampleProvider "acme" "https://x"]
            (sampleRouter "acme,m1")), backups := [] }).Providers.any
      (fun q => decide (q.name = "acme")) = true)
    ∧ (CcrConfigManager.update_provider_only
        { file := some (sampleDoc [sampleProvider "acme" "https://x"]
            (sampleRouter "acme,m1")), backups := [] }
        (tempRemovalProvider "acme") .Add).1
      = .error (.InvalidConfig "API URL不能为空")
    ∧ (CcrConfigManager.update_provider_only
        { file := some (sampleDoc [sampleProvider "acme" "https://x"]
            (sampleRouter "acme,m1")), backups := [] }
        (tempRemovalProvider "acme") .Add).1
      ≠ .error (.Config "Provider acme 已存在") := by
  refine ⟨by decide, by decide, by decide⟩

/-- C3 (amended): every mutating Reconciler operation
(`update_provider_only`, `save_config`, `update_router_only`) performs
its validation and existence checks first and only then backs up (only
if the config file already exists) and writes: every failing run leaves
the on-disk document and the backup trail unchanged (no backup, no
write), and every successful run appends exactly one backup of the
pre-existing file content (none when no file existed) before the write.
For `update_provider_only`: `Add` of a payload passing validation whose
name exists fails with the already-exists error (an invalid duplicate
payload fails with the validation error instead, since validation
precedes the existence check); `Update` (valid payload, absent name) and
`Remove` (absent name) fail with the not-found error. -/
theorem c3_amended_validate_backup_write_ordering :
    (∀ (st : CcrState) (p : CcrProvider) (op : ProviderOperation)
        (e : AppError),
      (CcrConfigManager.update_provider_only st p op).1 = .error e →
      (CcrConfigManager.update_provider_only st p op).2 = st)
    ∧ (∀ (st : CcrState) (p : CcrProvider),
      p.validate = .ok () →
      (CcrConfigManager.load_config st).Providers.any
          (fun q => decide (q.name = p.name)) = true →
      CcrConfigManager.update_provider_only st p .Add
        = (.error (.Config ("Provider " ++ p.name ++ " 已存在")), st))
    ∧ (∀ (st : CcrState) (p : CcrProvider),
      p.validate = .ok () →
      (CcrConfigManager.load_config st).Providers.any
          (fun q => decide (q.name = p.name)) = false →
      CcrConfigManager.update_provider_only st p .Update
        = (.error (.Config ("Provider " ++ p.name ++ " 不存在")), st))
    ∧ (∀ (st : CcrState) (p : CcrProvider),
      (CcrConfigManager.load_config st).Providers.any
          (fun q => decide (q.name = p.name)) = false →
      CcrConfigManager.update_provider_only st p .Remove
        = (.error (.Config ("Provider " ++ p.name ++ " 不存在")), st))
    ∧ (∀ (st : CcrState) (p : CcrProvider) (op : ProviderOperation)
        (old : CcrConfig),
      (CcrConfigManager.update_provider_only st p op).1 = .ok () →
      st.file = some old →
      (CcrConfigManager.update_provider_only st p op).2.backups
        = st.backups ++ [old])
    ∧ (∀ (st : CcrState) (p : CcrProvider) (op : ProviderOperation),
      (CcrConfigManager.update_provider_only st p op).1 = .ok () →
      st.file = none →
      (CcrConfigManager.update_provider_only st p op).2.backups
        = st.backups)
    ∧ (∀ (st : CcrState) (doc : CcrConfig) (e : AppError),
      (CcrConfigManager.save_config st doc).1 = .error e →
      (CcrConfigManager.save_config st doc).2 = st)
    ∧ (∀ (st : CcrState) (doc old : CcrConfig),
      (CcrConfigManager.save_config st doc).1 = .ok () →
      st.file = some old →
      (CcrConfigManager.save_config st doc).2.backups = st.backups ++ [old]
      ∧ (CcrConfigManager.save_config st doc).2.file = some doc)
    ∧ (∀ (st : CcrState) (doc : CcrConfig),
      (CcrConfigManager.save_config st doc).1 = .ok () →
      st.file = none →
      (CcrConfigManager.save_config st doc).2.backups = st.backups
      ∧ (CcrConfigManager.save_config st doc).2.file = some doc)
    ∧ (∀ (st : CcrState) (r : CcrRouter) (e : AppError),
      (CcrConfigManager.update_router_only st r).1 = .error e →
      (CcrConfigManager.update_router_only st r).2 = st)
    ∧ (∀ (st : CcrState) (r : CcrRouter) (old : CcrConfig),
      (CcrConfigManager.update_router_only st r).1 = .ok () →
      st.file = some old →
      (CcrConfigManager.update_router_only st r).2.backups
        = st.backups ++ [old])
    ∧ (∀ (st : CcrState) (r : CcrRouter),
      (CcrConfigManager.update_router_only st r).1 = .ok () →
      st.file = none →
      (CcrConfigManager.update_router_only st r).2.backups
        = st.backups) := by
  refine ⟨?_, ?_, ?_, ?_, ?_, ?_, ?_, ?_, ?_, ?_, ?_, ?_⟩
  · intro st p op e herr
    cases op with
    | Add =>
        rcases hv : p.validate with ev | ⟨⟩
        · simp [CcrConfigManager.update_provider_only, hv]
        · by_cases hex : (CcrConfigManager.load_config st).Providers.any
              (fun q => decide (q.name = p.name)) = true
          · simp [CcrConfigManager.update_provider_only, hv, hex]
          · rw [Bool.not_eq_true] at hex
            simp [CcrConfigManager.update_provider_only, hv, hex] at herr
    | Update =>
        rcases hv : p.validate with ev | ⟨⟩
        · simp [CcrConfigManager.update_provider_only, hv]
        · by_cases hex : (CcrConfigManager.load_config st).Providers.any
              (fun q => decide (q.name = p.name)) = true
          · simp [CcrConfigManager.update_provider_only, hv, hex] at herr
          · rw [Bool.not_eq_true] at hex
            simp [CcrConfigManager.update_provider_only, hv, hex]
    | Remove =>
        by_cases hlen : ((CcrConfigManager.load_config st).Providers.filter
            (fun q => !decide (q.name = p.name))).length
            = (CcrConfigManager.load_config st).Providers.length
        · simp [CcrConfigManager.update_provider_only, hlen]
        · simp [CcrConfigManager.update_provider_only, hlen] at herr
  · intro st p hv hex
    simp [CcrConfigManager.update_provider_only, hv, hex]
  · intro st p hv hex
    simp [CcrConfigManager.update_provider_only, hv, hex]
  · intro st p hex
    have hfilter : (CcrConfigManager.load_config st).Providers.filter
        (fun q => !decide (q.name = p.name))
        = (CcrConfigManager.load_config st).Providers := by
      apply List.filter_eq_self.mpr
      intro a ha
      have := List.any_eq_false.mp hex a ha
      simpa using this
    simp [CcrConfigManager.update_provider_only, hfilter]
  · intro st p op old hok hfile
    cases op with
    | Add =>
        rcases hv : p.validate with ev | ⟨⟩
        · simp [CcrConfigManager.update_provider_only, hv] at hok
        · by_cases hex : (CcrConfigManager.load_config st).Providers.any
              (fun q => decide (q.name = p.name)) = true
          · simp [CcrConfigManager.update_provider_only, hv, hex] at hok
          · rw [Bool.not_eq_true] at hex
            simp [CcrConfigManager.update_provider_only, hv, hex,
              CcrConfigManager.backupAndWrite, hfile]
    | Update =>
        rcases hv : p.validate with ev | ⟨⟩
        · simp [CcrConfigManager.update_provider_only, hv] at hok
        · by_cases hex : (CcrConfigManager.load_config st).Providers.any
              (fun q => decide (q.name = p.name)) = true
          · simp [CcrConfigManager.update_provider_only, hv, hex,
              CcrConfigManager.backupAndWrite, hfile]
          · rw [Bool.not_eq_true] at hex
            simp [CcrConfigManager.update_provider_only, hv, hex] at hok
    | Remove =>
        by_cases hlen : ((CcrConfigManager.load_config st).Providers.filter
            (fun q => !decide (q.name = p.name))).length
            = (CcrConfigManager.load_config st).Providers.length
        · simp [CcrConfigManager.update_provider_only, hlen] at hok
        · simp [CcrConfigManager.update_provider_only, hlen,
            CcrConfigManager.backupAndWrite, hfile]
  · intro st p op hok hfile
    cases op with
    | Add =>
        rcases hv : p.validate with ev | ⟨⟩
        · simp [CcrConfigManager.update_provider_only, hv] at hok
        · by_cases hex : (CcrConfigManager.load_config st).Providers.any
              (fun q => decide (q.name = p.name)) = true
          · simp [CcrConfigManager.update_provider_only, hv, hex] at hok
          · rw [Bool.not_eq_true] at hex
            simp [CcrConfigManager.update_provider_only, hv, hex,
              CcrConfigManager.backupAndWrite, hfile]
    | Update =>
        rcases hv : p.validate with ev | ⟨⟩
        · simp [CcrConfigManager.update_provider_only, hv] at hok
        · by_cases hex : (CcrConfigManager.load_config st).Providers.any
              (fun q => decide (q.name = p.name)) = true
          · simp [CcrConfigManager.update_provider_only, hv, hex,
              CcrConfigManager.backupAndWrite, hfile]
          · rw [Bool.not_eq_true] at hex
            simp [CcrConfigManager.update_provider_only, hv, hex] at hok
    | Remove =>
        by_cases hlen : ((CcrConfigManager.load_config st).Providers.filter
            (fun q => !decide (q.name = p.name))).length
            = (CcrConfigManager.load_config st).Providers.length
        · simp [CcrConfigManager.update_provider_only, hlen] at hok
        · simp [CcrConfigManager.update_provider_only, hlen,
            CcrConfigManager.backupAndWrite, hfile]
  · intro st doc e herr
    rcases hv : doc.validate with ev | ⟨⟩
    · simp [CcrConfigManager.save_config, hv]
    · simp [CcrConfigManager.save_config, hv] at herr
  · intro st doc old hok hfile
    rcases hv : doc.validate with ev | ⟨⟩
    · simp [CcrConfigManager.save_config, hv] at hok
    · simp [CcrConfigManager.save_config, hv,
        CcrConfigManager.backupAndWrite, hfile]
  · intro st doc hok hfile
    rcases hv : doc.validate with ev | ⟨⟩
    · simp [CcrConfigManager.save_config, hv] at hok
    · simp [CcrConfigManager.save_config, hv,
        CcrConfigManager.backupAndWrite, hfile]
  · intro st r e herr
    rcases hv : r.validate with ev | ⟨⟩
    · simp [CcrConfigManager.update_router_only, hv]
    · rcases hfd : firstDanglingRoute
          ((CcrConfigManager.load_config st).Providers.map (fun p => p.name))
          r.get_all_routes with _ | x
      · simp [CcrConfigManager.update_router_only, hv, hfd] at herr
      · obtain ⟨rn, rv⟩ := x
        simp [CcrConfigManager.update_router_only, hv, hfd]
  · intro st r old hok hfile
    rcases hv : r.validate with ev | ⟨⟩
    · simp [CcrConfigManager.update_router_only, hv] at hok
    · rcases hfd : firstDanglingRoute
          ((CcrConfigManager.load_config st).Providers.map (fun p => p.name))
          r.get_all_routes with _ | x
      · simp [CcrConfigManager.update_router_only, hv, hfd,
          CcrConfigManager.backupAndWrite, hfile]
      · obtain ⟨rn, rv⟩ := x
        simp [CcrConfigManager.update_router_only, hv, hfd] at hok
  · intro st r hok hfile
    rcases hv : r.validate with ev | ⟨⟩
    · simp [CcrConfigManager.update_router_only, hv] at hok
    · rcases hfd : firstDanglingRoute
          ((CcrConfigManager.load_config st).Providers.map (fun p => p.name))
          r.get_all_routes with _ | x
      · simp [CcrConfigManager.update_router_only, hv, hfd,
          CcrConfigManager.backupAndWrite, hfile]
      · obtain ⟨rn, rv⟩ := x
        simp [CcrConfigManager.update_router_only, hv, hfd] at hok

/-- Witness for C3: `Add` of a valid payload whose name is taken fails
with the already-exists error and leaves the state unchanged. -/
theorem c3_witness :
    CcrProvider.validate (sampleProvider "acme" "https://y") = .ok ()
    ∧ CcrConfigManager.update_provider_only
        { file := some (sampleDoc [sampleProvider "acme" "https://x"]
            (sampleRouter "acme,m1")), backups := [] }
        (sampleProvider "acme" "https://y") .Add
      = (.error (.Config "Provider acme 已存在"),
         { file := some (sampleDoc [sampleProvider "acme" "https://x"]
             (sampleRouter "acme,m1")), backups := [] }) :=
  ⟨by decide,
   c3_amended_validate_backup_write_ordering.2.1 _ _ (by decide) (by decide)⟩

/-! ## C4 -/

/-- C4: Profile Store add semantics — `add` fails with the already-exists
error when the name is taken; otherwise it validates the value and on
validation failure inserts nothing (the store is exactly as before); on
success it inserts the value under the name, touches no other collection,
and promotes the name to the collection's default pointer if and only if
the collection was empty before the add (for both the direct and the ccr
collections). -/
theorem c4_profile_store_add_semantics :
    (∀ (c : Config) (name : String) (p : DirectProfile),
      (containsKey c.groups.direct name = true →
        c.add_direct_profile name p
          = (.error (.Config ("配置 " ++ name ++ " 已存在")), c))
      ∧ (∀ e, containsKey c.groups.direct name = false →
          validate_direct_profile p = .error e →
          c.add_direct_profile name p = (.error e, c))
      ∧ (containsKey c.groups.direct name = false →
        validate_direct_profile p = .ok () →
        (c.add_direct_profile name p).1 = .ok ()
        ∧ (c.add_direct_profile name p).2.groups.direct
            = c.groups.direct ++ [(name, p)]
        ∧ (c.add_direct_profile name p).2.groups.ccr = c.groups.ccr
        ∧ (c.groups.direct = [] →
            (c.add_direct_profile name p).2.default_profile.bind
              (fun dp => dp.direct) = some name)
        ∧ (c.groups.direct ≠ [] →
            (c.add_direct_profile name p).2.default_profile
              = c.default_profile)))
    ∧ (∀ (c : Config) (name : String) (p : CcrProfile),
      (containsKey c.groups.ccr name = true →
        c.add_ccr_profile name p
          = (.error (.Config ("配置 " ++ name ++ " 已存在")), c))
      ∧ (∀ e, containsKey c.groups.ccr name = false →
          p.validate = .error e →
          c.add_ccr_profile name p = (.error e, c))
      ∧ (containsKey c.groups.ccr name = false →
        p.validate = .ok () →
        (c.add_ccr_profile name p).1 = .ok ()
        ∧ (c.add_ccr_profile name p).2.groups.ccr
            = c.groups.ccr ++ [(name, p)]
        ∧ (c.add_ccr_profile name p).2.groups.direct = c.groups.direct
        ∧ (c.groups.ccr = [] →
            (c.add_ccr_profile name p).2.default_profile.bind
              (fun dp => dp.ccr) = some name)
        ∧ (c.groups.ccr ≠ [] →
            (c.add_ccr_profile name p).2.default_profile
              = c.default_profile))) := by
  constructor
  · intro c name p
    refine ⟨?_, ?_, ?_⟩
    · intro hc
      simp [Config.add_direct_profile, hc]
    · intro e hc hv
      simp [Config.add_direct_profile, hc, hv]
    · intro hc hv
      cases hd : c.groups.direct with
      | nil =>
          rcases hdp : c.default_profile with _ | dp <;>
            simp [Config.add_direct_profile, containsKey, hc, hv, hd, hdp]
      | cons x xs =>
          rw [hd] at hc
          have hlen : ¬(((x :: xs : ProfileMap DirectProfile)
              ++ [(name, p)]).length = 1) := by simp
          simp [Config.add_direct_profile, hc, hv, hd, hlen]
  · intro c name p
    refine ⟨?_, ?_, ?_⟩
    · intro hc
      simp [Config.add_ccr_profile, hc]
    · intro e hc hv
      simp [Config.add_ccr_profile, hc, hv]
    · intro hc hv
      cases hd : c.groups.ccr with
      | nil =>
          rcases hdp : c.default_profile with _ | dp <;>
            simp [Config.add_ccr_profile, containsKey, hc, hv, hd, hdp]
      | cons x xs =>
          rw [hd] at hc
          have hlen : ¬(((x :: xs : ProfileMap CcrProfile)
              ++ [(name, p)]).length = 1) := by simp
          simp [Config.add_ccr_profile, hc, hv, hd, hlen]

/-- Witness for C4: adding the first direct profile to an empty store
succeeds and promotes it to default. -/
theorem c4_witness :
    containsKey ([] : ProfileMap DirectProfile) "work" = false
    ∧ validate_direct_profile
        { anthropic_auth_token := "tok", anthropic_base_url := "https://a",
          description := none, created_at := none } = .ok ()
    ∧ (Config.add_direct_profile
        { version := "1.0", default_group := some "direct",
          default_profile := none, groups := { direct := [], ccr := [] },
          default := none, profiles := none } "work"
        { anthropic_auth_token := "tok", anthropic_base_url := "https://a",
          description := none, created_at := none }).2.default_profile.bind
        (fun dp => dp.direct) = some "work" :=
  ⟨by decide, by decide,
   ((c4_profile_store_add_semantics.1 _ "work" _).2.2 (by decide)
     (by decide)).2.2.2.1 rfl⟩

/-! ## C6 -/

theorem migrate_profiles_none (c : Config) :
    (c.migrate_legacy_format).profiles = none := by
  unfold Config.migrate_legacy_format
  rcases hp : c.profiles with _ | ps <;>
    rcases hd : c.default with _ | d <;>
      rcases hg : c.default_group with _ | g <;>
        simp [hp, hd, hg]

theorem migrate_default_none (c : Config) :
    (c.migrate_legacy_format).default = none := by
  unfold Config.migrate_legacy_format
  rcases hp : c.profiles with _ | ps <;>
    rcases hd : c.default with _ | d <;>
      rcases hg : c.default_group with _ | g <;>
        simp [hp, hd, hg]

theorem migrate_default_group_ne_none (c : Config) :
    (c.migrate_legacy_format).default_group ≠ none := by
  unfold Config.migrate_legacy_format
  rcases hp : c.profiles with _ | ps <;>
    rcases hd : c.default with _ | d <;>
      rcases hg : c.default_group with _ | g <;>
        simp [hp, hd, hg]

theorem migrate_eq_self_of_current (c : Config) (h1 : c.profiles = none)
    (h2 : c.default = none) (h3 : c.default_group ≠ none) :
    c.migrate_legacy_format = c := by
  unfold Config.migrate_legacy_format
  rcases hg : c.default_group with _ | g
  · exact absurd hg h3
  · simp [h1, h2, hg]

/-- C6: migration idempotence — `migrate(migrate(d)) = migrate(d)` for
every input document, and migration is a no-op on an already-current
document (no legacy `profiles`, no legacy `default`, `default_group`
set). -/
theorem c6_migration_idempotence :
    (∀ c : Config,
      (c.migrate_legacy_format).migrate_legacy_format
        = c.migrate_legacy_format)
    ∧ (∀ c : Config, c.profiles = none → c.default = none →
        c.default_group ≠ none → c.migrate_legacy_format = c) := by
  constructor
  · intro c
    exact migrate_eq_self_of_current _ (migrate_profiles_none c)
      (migrate_default_none c) (migrate_default_group_ne_none c)
  · intro c h1 h2 h3
    exact migrate_eq_self_of_current c h1 h2 h3

/-- Witness for C6: migration leaves a current document unchanged. -/
theorem c6_witness :
    (({ version := "1.0", default_group := some "direct",
        default_profile := none, groups := { direct := [], ccr := [] },
        default := none, profiles := none } : Config).profiles = none)
    ∧ Config.migrate_legacy_format
        { version := "1.0", default_group := some "direct",
          default_profile := none, groups := { direct := [], ccr := [] },
          default := none, profiles := none }
      = { version := "1.0", default_group := some "direct",
          default_profile := none, groups := { direct := [], ccr := [] },
          default := none, profiles := none } :=
  ⟨by decide,
   c6_migration_idempotence.2 _ rfl rfl (by simp)⟩

/-! ## C7 -/

/-- C7: bootstrap resolution — looking up a missing name other than
`default` fails with `ProfileNotFound` directly and synthesizes nothing;
looking up a missing `default` runs the three-outcome state machine:
`LocalExists` (store non-empty, lookup still fails), `GeneratedDefault`
(store empty, Proxy Config file exists with at least one provider and a
well-shaped route set: a profile named `default` carrying that route set
is synthesized, persisted, and returned by the retried lookup), and
`NeedCreateProvider` (no file or no providers: the create-a-provider
error). -/
theorem c7_bootstrap_resolution :
    (∀ (localFile : Option LocalRouterStore) (ccr : CcrState) (name : String),
      name ≠ "default" →
      findEntry (localFile.getD LocalRouterStore.empty).router name = none →
      CcrConfigManager.get_router_profile localFile ccr name
        = (.error (.ProfileNotFound name), localFile))
    ∧ (∀ (localFile : Option LocalRouterStore) (ccr : CcrState),
      findEntry (localFile.getD LocalRouterStore.empty).router "default"
        = none →
      (localFile.getD LocalRouterStore.empty).router ≠ [] →
      CcrConfigManager.get_router_profile localFile ccr "default"
        = (.error (.ProfileNotFound "default"), localFile))
    ∧ (∀ (localFile : Option LocalRouterStore) (ccr : CcrState)
        (doc : CcrConfig),
      (localFile.getD LocalRouterStore.empty).router = [] →
      ccr.file = some doc →
      doc.Router.validate = .ok () →
      doc.Providers ≠ [] →
      ∃ rp : RouterProfile,
        rp.name = "default" ∧ rp.router = doc.Router ∧
        CcrConfigManager.get_router_profile localFile ccr "default"
          = (.ok rp, some { router := [("default", rp)],
                            default_router := some "default" }))
    ∧ (∀ (localFile : Option LocalRouterStore) (ccr : CcrState),
      (localFile.getD LocalRouterStore.empty).router = [] →
      (ccr.file = none ∨ (CcrConfigManager.load_config ccr).Providers = []) →
      CcrConfigManager.get_router_profile localFile ccr "default"
        = (.error (.Config
            "暂无 Provider 配置，请先使用 ccode provider add 添加 Provider"),
           localFile)) := by
  refine ⟨?_, ?_, ?_, ?_⟩
  · intro localFile ccr name hname hfind
    simp [CcrConfigManager.get_router_profile,
      LocalRouterStore.get_router_profile, hfind, hname]
  · intro localFile ccr hfind hne
    have hemp : (localFile.getD LocalRouterStore.empty).router.isEmpty
        = false := by
      cases h : (localFile.getD LocalRouterStore.empty).router with
      | nil => exact absurd h hne
      | cons x xs => simp
    simp [CcrConfigManager.get_router_profile,
      LocalRouterStore.get_router_profile, hfind,
      CcrConfigManager.ensure_router_profile_exists, hemp]
  · intro localFile ccr doc hrouter hfile hvalid hproviders
    have hpe : doc.Providers.isEmpty = false := by
      cases h : doc.Providers with
      | nil => exact absurd h hproviders
      | cons x xs => simp
    refine ⟨{ name := "default", router := doc.Router,
              description := some "从 claude-code-router 配置自动生成",
              created_at := none }, rfl, rfl, ?_⟩
    have hload : CcrConfigManager.load_config ccr = doc := by
      simp [CcrConfigManager.load_config, hfile]
    simp only [LocalRouterStore.empty] at hrouter
    simp [CcrConfigManager.get_router_profile,
      LocalRouterStore.get_router_profile, hrouter, findEntry,
      CcrConfigManager.ensure_router_profile_exists,
      CcrConfigManager.generate_default_router_profile, hload, hfile, hpe,
      RouterProfile.new, hvalid, LocalRouterStore.add_router_profile,
      LocalRouterStore.empty, containsKey]
  · intro localFile ccr hrouter hcase
    simp only [LocalRouterStore.empty] at hrouter
    rcases hcase with hnone | hempty
    · simp [CcrConfigManager.get_router_profile,
        LocalRouterStore.get_router_profile, hrouter, findEntry,
        CcrConfigManager.ensure_router_profile_exists, hnone,
        LocalRouterStore.empty]
    · rcases hfile : ccr.file with _ | doc
      · simp [CcrConfigManager.get_router_profile,
          LocalRouterStore.get_router_profile, hrouter, findEntry,
          CcrConfigManager.ensure_router_profile_exists, hfile,
          LocalRouterStore.empty]
      · have hpe : (CcrConfigManager.load_config ccr).Providers.isEmpty
            = true := by simp [hempty]
        simp [CcrConfigManager.get_router_profile,
          LocalRouterStore.get_router_profile, hrouter, findEntry,
          CcrConfigManager.ensure_router_profile_exists, hfile, hpe,
          LocalRouterStore.empty]

/-- Witness for C7: with an empty local store and a Proxy Config document
holding one provider `acme` and route set `acme,m1`, resolving `default`
synthesizes and persists a profile named `default` with that route set. -/
theorem c7_witness :
    CcrRouter.validate (sampleRouter "acme,m1") = .ok ()
    ∧ ∃ rp : RouterProfile,
        rp.name = "default" ∧ rp.router = sampleRouter "acme,m1" ∧
        CcrConfigManager.get_router_profile none
          { file := some (sampleDoc [sampleProvider "acme" "https://x"]
              (sampleRouter "acme,m1")), backups := [] } "default"
          = (.ok rp, some { router := [("default", rp)],
                            default_router := some "default" }) :=
  ⟨by decide,
   c7_bootstrap_resolution.2.2.1 none
     { file := some (sampleDoc [sampleProvider "acme" "https://x"]
         (sampleRouter "acme,m1")), backups := [] }
     (sampleDoc [sampleProvider "acme" "https://x"] (sampleRouter "acme,m1"))
     (by decide) rfl (by decide) (by decide)⟩

/-! ## C8 -/

theorem charsStartWith_append (p r : List Char) :
    charsStartWith (p ++ r) p = true := by
  induction p with
  | nil => cases r <;> rfl
  | cons c cs ih => simp [charsStartWith, ih]

theorem charsLt_append_same (p a b : List Char) :
    charsLt (p ++ a) (p ++ b) = charsLt a b := by
  induction p with
  | nil => rfl
  | cons c cs ih => simp [charsLt, lt_irrefl, ih]

theorem charsLt_append_of_lt :
    ∀ (a b r1 r2 : List Char), charsLt a b = true → a.length = b.length →
      charsLt (a ++ r1) (b ++ r2) = true := by
  intro a
  induction a with
  | nil =>
      intro b r1 r2 hlt hlen
      cases b with
      | nil => simp [charsLt] at hlt
      | cons y ys => simp at hlen
  | cons x xs ih =>
      intro b r1 r2 hlt hlen
      cases b with
      | nil => simp at hlen
      | cons y ys =>
          simp only [charsLt] at hlt
          simp only [List.cons_append, charsLt]
          by_cases h1 : x < y
          · simp [h1]
          · rw [if_neg h1] at hlt ⊢
            by_cases h2 : y < x
            · rw [if_pos h2] at hlt; cases hlt
            · rw [if_neg h2] at hlt ⊢
              exact ih ys r1 r2 hlt (by simpa using hlen)

theorem charsLe_total (a : List Char) :
    ∀ b, charsLe a b = true ∨ charsLe b a = true := by
  induction a with
  | nil => intro b; left; rfl
  | cons x xs ih =>
      intro b
      cases b with
      | nil => right; rfl
      | cons y ys =>
          simp only [charsLe]
          rcases lt_trichotomy x y with h | h | h
          · left; simp [h, asymm h]
          · subst h
            rcases ih ys with hy | hy <;> simp [lt_irrefl, hy]
          · right; simp [h, asymm h]

theorem charsLe_trans :
    ∀ (a b c : List Char), charsLe a b = true → charsLe b c = true →
      charsLe a c = true := by
  intro a
  induction a with
  | nil => intro b c _ _; rfl
  | cons x xs ih =>
      intro b c hab hbc
      cases b with
      | nil => simp [charsLe] at hab
      | cons y ys =>
          cases c with
          | nil => simp [charsLe] at hbc
          | cons z zs =>
              simp only [charsLe] at hab hbc ⊢
              rcases lt_trichotomy x y with h1 | h1 | h1
              · rcases lt_trichotomy y z with h2 | h2 | h2
                · simp [lt_trans h1 h2]
                · subst h2; simp [h1]
                · rw [if_neg (asymm h2), if_pos h2] at hbc; cases hbc
              · subst h1
                rcases lt_trichotomy x z with h2 | h2 | h2
                · simp [h2]
                · subst h2
                  simp only [lt_irrefl, if_neg] at hab hbc ⊢
                  simp at hab hbc ⊢
                  exact ih ys zs hab hbc
                · rw [if_neg (asymm h2), if_pos h2] at hbc; cases hbc
              · rw [if_neg (asymm h1), if_pos h1] at hab; cases hab

theorem charsLt_imp_not_le (a b : List Char) (h : charsLt a b = true) :
    charsLe b a = false := by
  induction a generalizing b with
  | nil =>
      cases b with
      | nil => simp [charsLt] at h
      | cons y ys => rfl
  | cons x xs ih =>
      cases b with
      | nil => simp [charsLt] at h
      | cons y ys =>
          simp only [charsLt] at h
          simp only [charsLe]
          by_cases h1 : x < y
          · simp [asymm h1, h1]
          · rw [if_neg h1] at h
            by_cases h2 : y < x
            · rw [if_pos h2] at h; cases h
            · rw [if_neg h2] at h
              simp [h1, h2, ih ys h]

instance : IsTotal String strDescend :=
  ⟨fun a b => by
    unfold strDescend
    rcases charsLe_total b.data a.data with h | h
    · left; exact h
    · right; exact h⟩

instance : IsTrans String strDescend :=
  ⟨fun a b c hab hbc => charsLe_trans c.data b.data a.data hbc hab⟩

theorem padDigits_length (w n : Nat) : (padDigits w n).length = w := by
  induction w generalizing n with
  | zero => rfl
  | succ w ih => simp [padDigits, ih]

theorem padDigits_mod (w : Nat) :
    ∀ n, padDigits w n = padDigits w (n % 10 ^ w) := by
  induction w with
  | zero => intro n; rfl
  | succ w ih =>
      intro n
      have hdvd : (10 : Nat) ^ w ∣ 10 ^ (w + 1) := ⟨10, by rw [pow_succ]⟩
      have hhead : n % 10 ^ (w + 1) / 10 ^ w % 10 = n / 10 ^ w % 10 := by
        rw [pow_succ, Nat.mod_mul_right_div_self,
          Nat.mod_mod_of_dvd _ (dvd_refl 10)]
      have htail : padDigits w (n % 10 ^ (w + 1)) = padDigits w n := by
        rw [ih (n % 10 ^ (w + 1)), Nat.mod_mod_of_dvd _ hdvd, ← ih n]
      simp only [padDigits, hhead, htail]

theorem digitChar_lt_digitChar :
    ∀ a < 10, ∀ b < 10, a < b → Nat.digitChar a < Nat.digitChar b := by
  decide

theorem padDigits_lt (w : Nat) :
    ∀ n1 n2, n1 < n2 → n2 < 10 ^ w →
      charsLt (padDigits w n1) (padDigits w n2) = true := by
  induction w with
  | zero =>
      intro n1 n2 h12 h2
      simp at h2
      omega
  | succ w ih =>
      intro n1 n2 h12 h2
      rw [pow_succ] at h2
      have hd1 : n1 / 10 ^ w < 10 := Nat.div_lt_of_lt_mul (lt_trans h12 h2)
      have hd2 : n2 / 10 ^ w < 10 := Nat.div_lt_of_lt_mul h2
      have hmod1 : n1 / 10 ^ w % 10 = n1 / 10 ^ w := Nat.mod_eq_of_lt hd1
      have hmod2 : n2 / 10 ^ w % 10 = n2 / 10 ^ w := Nat.mod_eq_of_lt hd2
      simp only [padDigits, hmod1, hmod2]
      rcases Nat.lt_trichotomy (n1 / 10 ^ w) (n2 / 10 ^ w) with hlt | heq | hgt
      · have hc := digitChar_lt_digitChar _ hd1 _ hd2 hlt
        simp only [charsLt]
        rw [if_pos hc]
      · rw [heq]
        simp only [charsLt, lt_irrefl, if_neg, if_false]
        have hB : 0 < (10 : Nat) ^ w := pow_pos (by norm_num) w
        have e1 := Nat.div_add_mod n1 (10 ^ w)
        have e2 := Nat.div_add_mod n2 (10 ^ w)
        rw [← heq] at e2
        have hmm : n1 % 10 ^ w < n2 % 10 ^ w := by omega
        rw [padDigits_mod w n1, padDigits_mod w n2]
        exact ih (n1 % 10 ^ w) (n2 % 10 ^ w) hmm (Nat.mod_lt _ hB)
      · exact absurd hgt (not_lt.mpr (Nat.div_le_div_right (le_of_lt h12)))

theorem padDigits_append (w1 w2 q m : Nat) (hm : m < 10 ^ w2) :
    padDigits (w1 + w2) (q * 10 ^ w2 + m)
      = padDigits w1 q ++ padDigits w2 m := by
  induction w1 with
  | zero =>
      simp only [Nat.zero_add, padDigits, List.nil_append]
      rw [padDigits_mod w2 (q * 10 ^ w2 + m), Nat.add_comm,
        Nat.add_mul_mod_self_right, Nat.mod_eq_of_lt hm]
  | succ w1 ih =>
      have hB : 0 < (10 : Nat) ^ w2 := pow_pos (by norm_num) w2
      have hNdiv : (q * 10 ^ w2 + m) / 10 ^ (w1 + w2) = q / 10 ^ w1 := by
        rw [pow_add, mul_comm ((10 : Nat) ^ w1) (10 ^ w2),
          ← Nat.div_div_eq_div_mul, mul_comm q (10 ^ w2),
          Nat.mul_add_div hB, Nat.div_eq_of_lt hm, Nat.add_zero]
      rw [Nat.succ_add]
      simp only [padDigits, hNdiv, List.cons_append]
      rw [ih]

theorem padDigits_append100 (w1 q m : Nat) (hm : m < 100) :
    padDigits (w1 + 2) (q * 100 + m) = padDigits w1 q ++ padDigits 2 m := by
  have h100 : (100 : Nat) = 10 ^ 2 := by norm_num
  rw [h100] at hm
  have := padDigits_append w1 2 q m hm
  rw [h100]
  exact this

theorem backupChars_eq (t : Timestamp) (h : t.valid) :
    backupChars t
      = "config_backup_".data
        ++ (padDigits 8 ((t.year * 100 + t.month) * 100 + t.day)
          ++ ('_' :: (padDigits 6 ((t.hour * 100 + t.minute) * 100 + t.second)
            ++ ".json".data))) := by
  obtain ⟨hy, hmo, hd, hh, hmi, hs⟩ := h
  have hdate1 : padDigits 6 (t.year * 100 + t.month)
      = padDigits 4 t.year ++ padDigits 2 t.month := padDigits_append100 4 _ _ hmo
  have hdate2 : padDigits 8 ((t.year * 100 + t.month) * 100 + t.day)
      = padDigits 6 (t.year * 100 + t.month) ++ padDigits 2 t.day :=
    padDigits_append100 6 _ _ hd
  have htime1 : padDigits 4 (t.hour * 100 + t.minute)
      = padDigits 2 t.hour ++ padDigits 2 t.minute := padDigits_append100 2 _ _ hmi
  have htime2 : padDigits 6 ((t.hour * 100 + t.minute) * 100 + t.second)
      = padDigits 4 (t.hour * 100 + t.minute) ++ padDigits 2 t.second :=
    padDigits_append100 4 _ _ hs
  rw [hdate2, hdate1, htime2, htime1]
  simp [backupChars, List.append_assoc]

theorem charsLt_cons_same (c : Char) (a b : List Char) :
    charsLt (c :: a) (c :: b) = charsLt a b := by
  simp [charsLt, lt_irrefl]

theorem backup_filename_strictMono (t1 t2 : Timestamp)
    (h1 : t1.valid) (h2 : t2.valid) (hk : t1.key < t2.key) :
    strAscend (backup_filename t1) (backup_filename t2) := by
  have hb1 := h1
  have hb2 := h2
  obtain ⟨hy1, hmo1, hd1, hh1, hmi1, hs1⟩ := hb1
  obtain ⟨hy2, hmo2, hd2, hh2, hmi2, hs2⟩ := hb2
  have hcase : ((t1.year * 100 + t1.month) * 100 + t1.day)
        < ((t2.year * 100 + t2.month) * 100 + t2.day)
      ∨ (((t1.year * 100 + t1.month) * 100 + t1.day)
          = ((t2.year * 100 + t2.month) * 100 + t2.day)
        ∧ ((t1.hour * 100 + t1.minute) * 100 + t1.second)
            < ((t2.hour * 100 + t2.minute) * 100 + t2.second)) := by
    simp only [Timestamp.key] at hk
    omega
  have hdk2 : (t2.year * 100 + t2.month) * 100 + t2.day < 10 ^ 8 := by
    have : (10 : Nat) ^ 8 = 100000000 := by norm_num
    omega
  have htk2 : (t2.hour * 100 + t2.minute) * 100 + t2.second < 10 ^ 6 := by
    have : (10 : Nat) ^ 6 = 1000000 := by norm_num
    omega
  show charsLt (backup_filename t1).data (backup_filename t2).data = true
  have hdata : ∀ l : List Char, (String.mk l).data = l := fun _ => rfl
  unfold backup_filename
  rw [hdata, hdata, backupChars_eq t1 h1, backupChars_eq t2 h2,
    charsLt_append_same]
  rcases hcase with hlt | ⟨heq, hlt⟩
  · exact charsLt_append_of_lt _ _ _ _
      (padDigits_lt 8 _ _ hlt hdk2)
      (by rw [padDigits_length, padDigits_length])
  · rw [heq, charsLt_append_same, charsLt_cons_same]
    exact charsLt_append_of_lt _ _ _ _
      (padDigits_lt 6 _ _ hlt htk2)
      (by rw [padDigits_length, padDigits_length])

/-- C8 counterexample: the generated backup name embeds the timestamp as
`YYYYMMDD_HHMMSS` — 14 digits separated by an underscore (15 characters),
so the name is never of the claimed `config_backup_<14-digit>.json` form
(the claimed form is one character shorter). -/
theorem c8_counterexample :
    CcrManager.create_backup true
        { year := 2025, month := 1, day := 2, hour := 3, minute := 4,
          second := 5 }
      = .ok "config_backup_20250102_030405.json"
    ∧ ∀ ds : String, ds.length = 14 →
        "config_backup_" ++ ds ++ ".json"
          ≠ "config_backup_20250102_030405.json" := by
  constructor
  · decide
  · intro ds hlen heq
    have h1 : ("config_backup_" ++ ds ++ ".json").length = 33 := by
      rw [String.length_append, String.length_append, hlen]
      decide
    rw [heq] at h1
    have h2 : ("config_backup_20250102_030405.json").length = 34 := by decide
    rw [h2] at h1
    cases h1

/-- C8 (amended): every backup is named
`config_backup_<8-digit-date>_<6-digit-time>.json` — the 14 timestamp
digits are split by an underscore into `YYYYMMDD` and `HHMMSS` (34
characters in all), the encoding is fixed-width and sortable (strictly
monotone in the timestamp, so lexical descending order is
newest-first), and `list_backups` returns exactly the backup-named files
sorted lexically descending. -/
theorem c8_amended_backup_naming_and_ordering :
    (∀ t : Timestamp,
      CcrManager.create_backup true t = .ok (backup_filename t))
    ∧ (∀ t : Timestamp, CcrManager.create_backup false t
        = .error (.Config "CCR配置文件不存在，无法创建备份"))
    ∧ (∀ t : Timestamp, isBackupFilename (backup_filename t) = true)
    ∧ (∀ t : Timestamp, t.valid → (backup_filename t).length = 34)
    ∧ (∀ t1 t2 : Timestamp, t1.valid → t2.valid → t1.key < t2.key →
        strAscend (backup_filename t1) (backup_filename t2))
    ∧ (∀ t1 t2 : Timestamp, t1.valid → t2.valid →
        strDescend (backup_filename t1) (backup_filename t2) →
        t2.key ≤ t1.key)
    ∧ (∀ files : List String,
        List.Sorted strDescend (CcrManager.list_backups files)
        ∧ ∀ x, x ∈ CcrManager.list_backups files
            ↔ (x ∈ files ∧ isBackupFilename x = true)) := by
  refine ⟨fun t => rfl, fun t => rfl, ?_, ?_, backup_filename_strictMono,
    ?_, ?_⟩
  · intro t
    have h1 : charsStartWith (backupChars t) "config_backup_".data = true := by
      rw [backupChars]
      simp only [List.append_assoc]
      exact charsStartWith_append _ _
    have h2 : charsStartWith (backupChars t).reverse ".json".data.reverse
        = true := by
      rw [backupChars]
      simp only [List.reverse_append, List.append_assoc]
      exact charsStartWith_append _ _
    have h2l : charsStartWith (backupChars t).reverse
        ['n', 'o', 's', 'j', '.'] = true := by simpa using h2
    simp [isBackupFilename, strEndsWith, strStartsWith, backup_filename,
      h1, h2l]
  · intro t hv
    have l1 : ("config_backup_".data).length = 14 := by decide
    have l2 : (".json".data).length = 5 := by decide
    show (backupChars t).length = 34
    rw [backupChars_eq t hv]
    simp [List.length_append, padDigits_length, l1, l2]
  · intro t1 t2 hv1 hv2 hdesc
    by_contra hle
    have hk : t1.key < t2.key := by omega
    have hasc := backup_filename_strictMono t1 t2 hv1 hv2 hk
    have := charsLt_imp_not_le _ _ hasc
    unfold strDescend at hdesc
    rw [hdesc] at this
    cases this
  · intro files
    constructor
    · exact List.sorted_insertionSort strDescend _
    · intro x
      simp [CcrManager.list_backups, List.mem_filter]

/-- Witness for C8: two concrete timestamps one second apart produce
names in strictly ascending lexical order. -/
theorem c8_witness :
    Timestamp.valid { year := 2025, month := 1, day := 2, hour := 3,
                      minute := 4, second := 5 }
    ∧ Timestamp.valid { year := 2025, month := 1, day := 2, hour := 3,
                        minute := 4, second := 6 }
    ∧ strAscend
        (backup_filename { year := 2025, month := 1, day := 2, hour := 3,
                           minute := 4, second := 5 })
        (backup_filename { year := 2025, month := 1, day := 2, hour := 3,
                           minute := 4, second := 6 }) :=
  ⟨by decide, by decide,
   c8_amended_backup_naming_and_ordering.2.2.2.2.1 _ _ (by decide)
     (by decide) (by decide)⟩
